import Mathlib

/-!
Verification of the depth-to-point-cloud pipeline of the 3DData repository.

The file shallowly embeds the three logic-bearing parts of the code:
* the calibration text parser (`load_camera_intrinsics` / `extract_param`
  in `analyze_depth.py`),
* the depth-image preprocessing and pinhole back-projection
  (`preprocess_depth_image` / `depth_to_point_cloud` in `analyze_depth.py`),
* the frame-numbering allocator of the batch extraction workflow
  (`organize_data` / `extract_frames_ffmpeg` in `data_extraction_ffmpeg.py`).

Machine floats of the original code are modelled as exact rationals;
raw depth samples are natural numbers.
-/

namespace ThreeDData

/-! ## Calibration parser (analyze_depth.py, `load_camera_intrinsics`)

The Python code searches the calibration text with two regular expressions
per key: first the loose pattern `key:\s*([\d.]+)` and, when that fails,
the stricter `key:\s*([\d.]+)\s*[,\n]`.  Both are simple enough that the
leftmost-match semantics of `re.search` can be implemented by direct
scanning: at each start position the pattern matches iff the text starts
with `key:`, and after greedily skipping whitespace there is at least one
digit-or-dot character; the captured group is the maximal digit-or-dot run
(whitespace and the group alphabet are disjoint, so no backtracking can
produce another group). -/

/-- Python `\s` on ASCII text: space, tab, newline, carriage return,
vertical tab, form feed. -/
def isPySpace (c : Char) : Bool :=
  c = ' ' || c = '\t' || c = '\n' || c = '\r' || c = '\x0b' || c = '\x0c'

/-- The character class `[\d.]` of both regular expressions. -/
def isDigitDot (c : Char) : Bool :=
  c.isDigit || c = '.'

/-- Does the pattern list occur at the very start of the text list? -/
def listStartsWith : List Char → List Char → Bool
  | [], _ => true
  | _ :: _, [] => false
  | a :: as, b :: bs => a = b && listStartsWith as bs

/-- Match the common part of both regexes at the current position:
`key:` then `\s*` then the group `([\d.]+)`.  Returns the captured group
and the remainder of the text after the group. -/
def matchKeyAt (key : List Char) (s : List Char) : Option (List Char × List Char) :=
  if listStartsWith (key ++ [':']) s then
    let r1 := (s.drop (key.length + 1)).dropWhile isPySpace
    let g := r1.takeWhile isDigitDot
    if g = [] then none else some (g, r1.drop g.length)
  else none

/-- Match the trailing `\s*[,\n]` of the strict regex. -/
def seekComma : List Char → Bool
  | [] => false
  | c :: rest =>
    if c = ',' || c = '\n' then true
    else if isPySpace c then seekComma rest
    else false

/-- Model of `re.search` with the loose pattern `key:\s*([\d.]+)`: leftmost match,
returning the captured group. -/
def searchLoose (key : List Char) : List Char → Option (List Char)
  | [] => none
  | c :: rest =>
    match matchKeyAt key (c :: rest) with
    | some (g, _) => some g
    | none => searchLoose key rest

/-- Model of `re.search` with the strict pattern `key:\s*([\d.]+)\s*[,\n]`:
leftmost match, returning the captured group. -/
def searchStrict (key : List Char) : List Char → Option (List Char)
  | [] => none
  | c :: rest =>
    match matchKeyAt key (c :: rest) with
    | some (g, after) => if seekComma after then some g else searchStrict key rest
    | none => searchStrict key rest

/-- Numeric value of a digit string (most significant first). -/
def digitsVal (l : List Char) : Nat :=
  l.foldl (fun a c => 10 * a + (c.toNat - 48)) 0

/-- Python `float` applied to a string drawn from the alphabet `[\d.]`:
it succeeds iff the string holds at most one dot and at least one digit,
and then denotes the obvious decimal value.  Failure models the
`ValueError` exception. -/
def parseFloat (l : List Char) : Option Rat :=
  if l.count '.' ≤ 1 ∧ l.any Char.isDigit then
    let ip := l.takeWhile (fun c => c ≠ '.')
    let fp := (l.dropWhile (fun c => c ≠ '.')).drop 1
    some ((digitsVal ip : Rat) + (digitsVal fp : Rat) / (10 : Rat) ^ fp.length)
  else none

/-- Result of a Python call that can raise: `PResult.err` models an
escaping exception. -/
inductive PResult (α : Type) where
  | ok : α → PResult α
  | err : PResult α
  deriving DecidableEq, Repr

/-- Embedding of `extract_param` of `analyze_depth.py`: try the loose regex first,
fall back to the strict one; a match whose group `float` cannot parse
raises (`PResult.err`); no match at all yields `none`. -/
def extract_param (key content : List Char) : PResult (Option Rat) :=
  match searchLoose key content with
  | some g =>
    match parseFloat g with
    | some v => .ok (some v)
    | none => .err
  | none =>
    match searchStrict key content with
    | some g =>
      match parseFloat g with
      | some v => .ok (some v)
      | none => .err
    | none => .ok none

/-- The four intrinsic parameter keys. -/
def kfx : List Char := ['f', 'x']

/-- Key `fy`. -/
def kfy : List Char := ['f', 'y']

/-- Key `cx`. -/
def kcx : List Char := ['c', 'x']

/-- Key `cy`. -/
def kcy : List Char := ['c', 'y']

/-- Python truthiness of an optional float: `None` and `0.0` are falsy,
every other number is truthy.  This is exactly what
`all([fx, fy, cx, cy])` tests per element. -/
def truthyOpt : Option Rat → Bool
  | none => false
  | some v => v != 0

/-- Embedding of `load_camera_intrinsics` of `analyze_depth.py`: extract the four
parameters in order (an exception in any extraction propagates), check
`if not all([fx, fy, cx, cy]): raise ValueError(...)` — Python
truthiness, so both `None` and `0.0` fail the check — and finally
`return fx, fy, cx, cy`.  When all four pass the truthiness check each
is a `some` of a nonzero number, so the unwrapping `Option.getD 0`
never hits its default. -/
def load_camera_intrinsics (content : List Char) : PResult (Rat × Rat × Rat × Rat) :=
  match extract_param kfx content with
  | .err => .err
  | .ok ofx =>
    match extract_param kfy content with
    | .err => .err
    | .ok ofy =>
      match extract_param kcx content with
      | .err => .err
      | .ok ocx =>
        match extract_param kcy content with
        | .err => .err
        | .ok ocy =>
          if truthyOpt ofx && truthyOpt ofy && truthyOpt ocx && truthyOpt ocy then
            .ok (ofx.getD 0, ofy.getD 0, ocx.getD 0, ocy.getD 0)
          else .err

/-- The extraction order the specification describes: the strict
comma/newline-terminated pattern first, the loose pattern only as a
fallback.  Written from the spec's words, for comparison with the
source's `extract_param`. -/
def extract_param_claimed (key content : List Char) : PResult (Option Rat) :=
  match searchStrict key content with
  | some g =>
    match parseFloat g with
    | some v => .ok (some v)
    | none => .err
  | none =>
    match searchLoose key content with
    | some g =>
      match parseFloat g with
      | some v => .ok (some v)
      | none => .err
    | none => .ok none

/-- Extraction using the loose pattern alone. -/
def extract_param_loose_only (key content : List Char) : PResult (Option Rat) :=
  match searchLoose key content with
  | some g =>
    match parseFloat g with
    | some v => .ok (some v)
    | none => .err
  | none => .ok none

/-! ## Depth preprocessing and back-projection (analyze_depth.py)

`preprocess_depth_image` takes the raster `cv2.imread` returned: either a
two-dimensional single-channel grid or a three-dimensional multi-channel
one.  It reduces the latter to channel 0, zeroes every raw sample outside
the open window `(0, 10000)` via `np.where`, converts to `uint16`
(`astype(np.uint16)`, i.e. reduction mod 2^16), and applies
`cv2.medianBlur(·, 3)`: a 3×3 median with `BORDER_REPLICATE` border
handling.  `depth_to_point_cloud` then scans the preprocessed grid in
row-major order and back-projects every sample whose scaled depth lies
strictly between `min_depth` and `max_depth`. -/

/-- The raster handed to `preprocess_depth_image`: `gray` models a 2-d
array, `multi` a 3-d one (`len(depth_image.shape) > 2`), each pixel a
list of channel samples. -/
inductive DepthInput where
  | gray : List (List Nat) → DepthInput
  | multi : List (List (List Nat)) → DepthInput

/-- Channel reduction `depth_image[:, :, 0]` when the input has more than two dimensions. -/
def toChannel0 : DepthInput → List (List Nat)
  | .gray g => g
  | .multi g => g.map fun row => row.map fun px => px.headD 0

/-- One step of the `np.where` sanity window: keep a raw sample only when
`0 < d` and `d < 10000`, otherwise replace it by `0`. -/
def windowSample (d : Nat) : Nat :=
  if 0 < d ∧ d < 10000 then d else 0

/-- The whole `np.where((depth > 0) & (depth < 10000), depth, 0)` grid. -/
def applyWindow (g : List (List Nat)) : List (List Nat) :=
  g.map fun row => row.map windowSample

/-- Conversion `astype(np.uint16)`: every sample reduced mod 2^16. -/
def toUint16 (g : List (List Nat)) : List (List Nat) :=
  g.map fun row => row.map fun d => d % 65536

/-- The replicated-border 3×3 neighbourhood of pixel `(v, u)`: row
indices `v-1, v, v+1` and column indices `u-1, u, u+1`, each clamped to
the grid (truncated `Nat` subtraction replicates the top/left border,
`min` the bottom/right one). -/
def nbhd (g : List (List Nat)) (v u : Nat) : List Nat :=
  let rs := [v - 1, v, min (v + 1) (g.length - 1)]
  let w := (g.getD v []).length
  let cs := [u - 1, u, min (u + 1) (w - 1)]
  rs.flatMap fun r => cs.map fun c => (g.getD r []).getD c 0

/-- Median of a 3×3 neighbourhood: the fifth-smallest of its nine
samples. -/
def median9 (l : List Nat) : Nat :=
  (l.insertionSort (· ≤ ·)).getD 4 0

/-- Model of `cv2.medianBlur(·, 3)` with `BORDER_REPLICATE`: every pixel replaced
by the median of its replicated-border 3×3 neighbourhood. -/
def medianFilter (g : List (List Nat)) : List (List Nat) :=
  (List.range g.length).map fun v =>
    (List.range (g.getD v []).length).map fun u => median9 (nbhd g v u)

/-- Embedding of `preprocess_depth_image` of `analyze_depth.py`: channel reduction,
sanity window, `uint16` conversion, 3×3 median blur, in that order. -/
def preprocess_depth_image (input : DepthInput) : List (List Nat) :=
  medianFilter (toUint16 (applyWindow (toChannel0 input)))

/-- A 3-d point, coordinates in meters. -/
abbrev Pt := Rat × Rat × Rat

/-- The pinhole back-projection of pixel `(u, v)` at depth `Z`:
`X = (u - cx) * Z / fx`, `Y = (v - cy) * Z / fy`. -/
def backproject (fx fy cx cy : Rat) (u v : Nat) (Z : Rat) : Pt :=
  (((u : Rat) - cx) * Z / fx, ((v : Rat) - cy) * Z / fy, Z)

/-- What one loop iteration of `depth_to_point_cloud` appends for pixel
`(u, v)` holding preprocessed sample `d`: the back-projected point when
`min_depth < Z < max_depth` with `Z = d * depth_scale`, nothing
otherwise. -/
def pixelContrib (fx fy cx cy scale minD maxD : Rat) (v u d : Nat) : List Pt :=
  let Z := (d : Rat) * scale
  if minD < Z ∧ Z < maxD then [backproject fx fy cx cy u v Z] else []

/-- The inner loop over one row, `u` counting from the given start. -/
def genRow (fx fy cx cy scale minD maxD : Rat) (v : Nat) : Nat → List Nat → List Pt
  | _, [] => []
  | u, d :: rest =>
    pixelContrib fx fy cx cy scale minD maxD v u d ++
      genRow fx fy cx cy scale minD maxD v (u + 1) rest

/-- The outer loop over the rows, `v` counting from the given start. -/
def genRows (fx fy cx cy scale minD maxD : Rat) : Nat → List (List Nat) → List Pt
  | _, [] => []
  | v, row :: rest =>
    genRow fx fy cx cy scale minD maxD v 0 row ++
      genRows fx fy cx cy scale minD maxD (v + 1) rest

/-- The full row-major generation loop of `depth_to_point_cloud` over an
already preprocessed grid. -/
def genPoints (fx fy cx cy scale minD maxD : Rat) (depth : List (List Nat)) : List Pt :=
  genRows fx fy cx cy scale minD maxD 0 depth

/-- Embedding of `depth_to_point_cloud` of `analyze_depth.py`, at the granularity the
claims need: intrinsics already parsed, raster already loaded, and the
open3d post-filters (statistical/radius outlier removal, voxel
downsampling) out of scope as external primitives.  The function
preprocesses the raster and back-projects every surviving sample. -/
def depth_to_point_cloud (fx fy cx cy scale minD maxD : Rat) (input : DepthInput) : List Pt :=
  genPoints fx fy cx cy scale minD maxD (preprocess_depth_image input)

/-- The all-zero `h × w` raster. -/
def zeroGrid (h w : Nat) : List (List Nat) :=
  List.replicate h (List.replicate w 0)

/-! ## Frame numbering allocator (data_extraction_ffmpeg.py)

The filesystem and the ffmpeg subprocess are abstracted: the persisted
counter file is an `Option Nat` (`none` when the file does not exist),
and each video is an `Option (Option Nat)` — `none` when the video file
is missing, `some none` when ffmpeg exits with an error, `some (some k)`
when ffmpeg materializes `k` frames. -/

/-- What one call of `extract_frames_ffmpeg` commits to disk: the start
index it was given, the number of frames it renamed, and the absolute
frame indices it assigned (consecutive from `start`). -/
structure ExtractResult where
  start : Nat
  count : Nat
  indices : List Nat
  deriving DecidableEq, Repr

/-- Embedding of `extract_frames_ffmpeg` of `data_extraction_ffmpeg.py` for a video
that exists: on ffmpeg success with `k` produced frames it renames them
to `frame_{start}.png … frame_{start+k-1}.png` and returns
`(start, k)`; on `CalledProcessError` it returns `(start, 0)` with no
frame renamed. -/
def extract_frames_ffmpeg (start : Nat) (ffmpegFrames : Option Nat) : ExtractResult :=
  match ffmpegFrames with
  | some k => { start := start, count := k, indices := List.range' start k }
  | none => { start := start, count := 0, indices := [] }

/-- Embedding of `get_next_frame_number`: the persisted value, or `0` when the counter
file does not exist. -/
def get_next_frame_number (persisted : Option Nat) : Nat :=
  persisted.getD 0

/-- The outcome of one `organize_data` batch: the counter value passed to
`save_next_frame_number`, the RGB extraction outcome, and the depth
extraction outcome (`none` when the depth video is missing). -/
structure OrganizeResult where
  committed : Nat
  rgb : ExtractResult
  depth : Option ExtractResult
  deriving DecidableEq, Repr

/-- Embedding of `organize_data` of `data_extraction_ffmpeg.py`: read the global
counter, extract RGB frames from `next_frame` (or keep
`(next_frame, 0)` when the RGB video is missing), set
`next_frame := start_frame + num_frames`, extract depth frames from the
same `start_frame`, and persist the updated counter. -/
def organize_data (persisted : Option Nat)
    (rgbVideo depthVideo : Option (Option Nat)) : OrganizeResult :=
  let next0 := get_next_frame_number persisted
  match rgbVideo with
  | some f =>
    let r := extract_frames_ffmpeg next0 f
    { committed := r.start + r.count
      rgb := r
      depth :=
        match depthVideo with
        | some df => some (extract_frames_ffmpeg r.start df)
        | none => none }
  | none =>
    { committed := next0
      rgb := { start := next0, count := 0, indices := [] }
      depth :=
        match depthVideo with
        | some df => some (extract_frames_ffmpeg next0 df)
        | none => none }

/-! ## Concrete inputs used by counterexamples and witnesses -/

/-- Layout (a) calibration text: the `fx`/`fy` pair comma-separated on
one line, the `cx`/`cy` pair on the next. -/
def calibTextA : List Char :=
  ("fx: 527.5, fy: 527.3\ncx: 322.1, cy: 241.9\n".toList)

/-- Layout (b) calibration text: one `key: value` pair per line. -/
def calibTextB : List Char :=
  ("fx: 500.0\nfy: 500.0\ncx: 320.0\ncy: 240.0\n".toList)

/-- A calibration text whose `cx` entry parses to exactly `0`. -/
def calibTextZero : List Char :=
  ("fx: 500\nfy: 500\ncx: 0\ncy: 240\n".toList)

/-- A calibration text with no `cy` entry at all. -/
def calibTextNoCy : List Char :=
  ("fx: 500\nfy: 500\ncx: 320\n".toList)

/-- A text on which the loose-first and strict-first strategies return
different values for `fx`: the loose pattern matches the first
occurrence `fx: 12`, the strict one only the second, `fx: 3,`. -/
def orderText : List Char :=
  ("fx: 12 fx: 3,\n".toList)

/-- The 2×2 end-to-end raster of the specification's scenario. -/
def scenarioGrid : List (List Nat) :=
  [[1000, 0], [2000, 5000]]

/-- Every match of the strict pattern is also a match of the loose
pattern, so when the loose search fails the strict search fails too:
the strict fallback branch of `extract_param` is dead code. -/
theorem searchStrict_eq_none (key : List Char) :
    ∀ content, searchLoose key content = none → searchStrict key content = none := by
  intro content
  induction content with
  | nil => intro _; rfl
  | cons a rest ih =>
    intro h
    unfold searchLoose at h
    unfold searchStrict
    cases hm : matchKeyAt key (a :: rest) with
    | some p =>
      rw [hm] at h
      obtain ⟨g, af⟩ := p
      simp at h
    | none =>
      rw [hm] at h
      simp only at h ⊢
      exact ih h

/-- C6: the claim states that for every key the parser tries the strict
comma/newline-terminated pattern first and the loose digits/dot pattern
only as a fallback.  The code does the opposite, and on `orderText` the
two orders return different values, so the claim as stated is false. -/
theorem claim_C6_cex :
    extract_param kfx orderText ≠ extract_param_claimed kfx orderText := by
  have h1 : extract_param kfx orderText
      = .ok (some ((12 : Rat) + 0 / (10 : Rat) ^ 0)) := rfl
  have h2 : extract_param_claimed kfx orderText
      = .ok (some ((3 : Rat) + 0 / (10 : Rat) ^ 0)) := rfl
  rw [h1, h2]
  intro h
  simp only [PResult.ok.injEq, Option.some.injEq] at h
  norm_num at h

/-- C6 (amended): for every key the parser first attempts the loose
`key:` digits/dot pattern and only when that fails falls back to the
strict comma/newline-terminated one; since every strict match is also a
loose match the fallback never fires, so the result always equals what
the loose pattern alone yields. -/
theorem claim_C6 :
    ∀ key content, extract_param key content = extract_param_loose_only key content := by
  intro key content
  unfold extract_param extract_param_loose_only
  cases hl : searchLoose key content with
  | some g => rfl
  | none =>
    rw [searchStrict_eq_none key content hl]

/-- C3: when each of the four keys is located and parses to a positive
number, `load_camera_intrinsics` returns exactly those four values; when
at least one key cannot be located (`.ok none`) or its match does not
parse as a number (`.err`), it fails with no partial result. -/
theorem claim_C3 :
    (∀ content a b c d,
      extract_param kfx content = .ok (some a) →
      extract_param kfy content = .ok (some b) →
      extract_param kcx content = .ok (some c) →
      extract_param kcy content = .ok (some d) →
      0 < a → 0 < b → 0 < c → 0 < d →
      load_camera_intrinsics content = .ok (a, b, c, d)) ∧
    (∀ content,
      (extract_param kfx content = .ok none ∨ extract_param kfx content = .err ∨
       extract_param kfy content = .ok none ∨ extract_param kfy content = .err ∨
       extract_param kcx content = .ok none ∨ extract_param kcx content = .err ∨
       extract_param kcy content = .ok none ∨ extract_param kcy content = .err) →
      load_camera_intrinsics content = .err) := by
  constructor
  · intro content a b c d h1 h2 h3 h4 ha hb hc hd
    simp [load_camera_intrinsics, h1, h2, h3, h4, truthyOpt, ha.ne', hb.ne', hc.ne', hd.ne']
  · intro content h
    rcases h with h | h | h | h | h | h | h | h <;>
      cases hfx : extract_param kfx content <;>
      cases hfy : extract_param kfy content <;>
      cases hcx : extract_param kcx content <;>
      cases hcy : extract_param kcy content <;>
      simp_all [load_camera_intrinsics, truthyOpt]

/-- Witness for C3: a layout (a) text and a layout (b) text parse to the
exact values they hold, and a text with no `cy` entry is rejected. -/
theorem claim_C3_witness :
    load_camera_intrinsics calibTextA = .ok (1055/2, 5273/10, 3221/10, 2419/10) ∧
    load_camera_intrinsics calibTextB = .ok (500, 500, 320, 240) ∧
    load_camera_intrinsics calibTextNoCy = .err := by
  have ea1 : extract_param kfx calibTextA = .ok (some (1055/2)) := by
    have h : extract_param kfx calibTextA
        = .ok (some ((527 : Rat) + 5 / (10 : Rat) ^ 1)) := rfl
    rw [h]; norm_num
  have ea2 : extract_param kfy calibTextA = .ok (some (5273/10)) := by
    have h : extract_param kfy calibTextA
        = .ok (some ((527 : Rat) + 3 / (10 : Rat) ^ 1)) := rfl
    rw [h]; norm_num
  have ea3 : extract_param kcx calibTextA = .ok (some (3221/10)) := by
    have h : extract_param kcx calibTextA
        = .ok (some ((322 : Rat) + 1 / (10 : Rat) ^ 1)) := rfl
    rw [h]; norm_num
  have ea4 : extract_param kcy calibTextA = .ok (some (2419/10)) := by
    have h : extract_param kcy calibTextA
        = .ok (some ((241 : Rat) + 9 / (10 : Rat) ^ 1)) := rfl
    rw [h]; norm_num
  have eb1 : extract_param kfx calibTextB = .ok (some 500) := by
    have h : extract_param kfx calibTextB
        = .ok (some ((500 : Rat) + 0 / (10 : Rat) ^ 1)) := rfl
    rw [h]; norm_num
  have eb2 : extract_param kfy calibTextB = .ok (some 500) := by
    have h : extract_param kfy calibTextB
        = .ok (some ((500 : Rat) + 0 / (10 : Rat) ^ 1)) := rfl
    rw [h]; norm_num
  have eb3 : extract_param kcx calibTextB = .ok (some 320) := by
    have h : extract_param kcx calibTextB
        = .ok (some ((320 : Rat) + 0 / (10 : Rat) ^ 1)) := rfl
    rw [h]; norm_num
  have eb4 : extract_param kcy calibTextB = .ok (some 240) := by
    have h : extract_param kcy calibTextB
        = .ok (some ((240 : Rat) + 0 / (10 : Rat) ^ 1)) := rfl
    rw [h]; norm_num
  refine ⟨?_, ?_, ?_⟩
  · exact claim_C3.1 calibTextA _ _ _ _ ea1 ea2 ea3 ea4
      (by norm_num) (by norm_num) (by norm_num) (by norm_num)
  · exact claim_C3.1 calibTextB _ _ _ _ eb1 eb2 eb3 eb4
      (by norm_num) (by norm_num) (by norm_num) (by norm_num)
  · exact claim_C3.2 calibTextNoCy
      (Or.inr (Or.inr (Or.inr (Or.inr (Or.inr (Or.inr (Or.inl rfl)))))))

/-- C9: when every key is located and parses but at least one value is
exactly `0`, `load_camera_intrinsics` raises instead of returning the
four values, because `all([fx, fy, cx, cy])` tests the truthiness of the
parsed floats and `0.0` is falsy. -/
theorem claim_C9 :
    ∀ content a b c d,
      extract_param kfx content = .ok (some a) →
      extract_param kfy content = .ok (some b) →
      extract_param kcx content = .ok (some c) →
      extract_param kcy content = .ok (some d) →
      (a = 0 ∨ b = 0 ∨ c = 0 ∨ d = 0) →
      load_camera_intrinsics content = .err := by
  intro content a b c d h1 h2 h3 h4 h0
  rcases h0 with h0 | h0 | h0 | h0 <;> subst h0 <;>
    simp [load_camera_intrinsics, h1, h2, h3, h4, truthyOpt]

/-- Witness for C9: a text whose `cx` entry is `0` is rejected although
all four keys are present and parseable. -/
theorem claim_C9_witness : load_camera_intrinsics calibTextZero = .err := by
  have e1 : extract_param kfx calibTextZero = .ok (some 500) := by
    have h : extract_param kfx calibTextZero
        = .ok (some ((500 : Rat) + 0 / (10 : Rat) ^ 0)) := rfl
    rw [h]; norm_num
  have e2 : extract_param kfy calibTextZero = .ok (some 500) := by
    have h : extract_param kfy calibTextZero
        = .ok (some ((500 : Rat) + 0 / (10 : Rat) ^ 0)) := rfl
    rw [h]; norm_num
  have e3 : extract_param kcx calibTextZero = .ok (some 0) := by
    have h : extract_param kcx calibTextZero
        = .ok (some ((0 : Rat) + 0 / (10 : Rat) ^ 0)) := rfl
    rw [h]; norm_num
  have e4 : extract_param kcy calibTextZero = .ok (some 240) := by
    have h : extract_param kcy calibTextZero
        = .ok (some ((240 : Rat) + 0 / (10 : Rat) ^ 0)) := rfl
    rw [h]; norm_num
  exact claim_C9 calibTextZero 500 500 0 240 e1 e2 e3 e4 (Or.inr (Or.inr (Or.inl rfl)))

/-- Whatever a pixel's iteration appends is part of the points its row's
loop produces. -/
theorem genRow_mem (fx fy cx cy s mi ma : Rat) (v : Nat) :
    ∀ (row : List Nat) (u0 i d : Nat) (p : Pt), row[i]? = some d →
      p ∈ pixelContrib fx fy cx cy s mi ma v (u0 + i) d →
      p ∈ genRow fx fy cx cy s mi ma v u0 row := by
  intro row
  induction row with
  | nil => intro u0 i d p h _; simp at h
  | cons a rest ih =>
    intro u0 i d p h hp
    cases i with
    | zero =>
      simp only [List.getElem?_cons_zero, Option.some.injEq] at h
      subst h
      rw [genRow]
      exact List.mem_append_left _ (by simpa using hp)
    | succ j =>
      simp only [List.getElem?_cons_succ] at h
      rw [genRow]
      have e : u0 + (j + 1) = (u0 + 1) + j := by omega
      rw [e] at hp
      exact List.mem_append_right _ (ih (u0 + 1) j d p h hp)

/-- Whatever a row's loop produces is part of the points the whole
row-major scan produces. -/
theorem genRows_mem (fx fy cx cy s mi ma : Rat) :
    ∀ (g : List (List Nat)) (v0 j : Nat) (row : List Nat) (p : Pt), g[j]? = some row →
      p ∈ genRow fx fy cx cy s mi ma (v0 + j) 0 row →
      p ∈ genRows fx fy cx cy s mi ma v0 g := by
  intro g
  induction g with
  | nil => intro v0 j row p h _; simp at h
  | cons r rest ih =>
    intro v0 j row p h hp
    cases j with
    | zero =>
      simp only [List.getElem?_cons_zero, Option.some.injEq] at h
      subst h
      rw [genRows]
      exact List.mem_append_left _ (by simpa using hp)
    | succ j' =>
      simp only [List.getElem?_cons_succ] at h
      rw [genRows]
      have e : v0 + (j' + 1) = (v0 + 1) + j' := by omega
      rw [e] at hp
      exact List.mem_append_right _ (ih (v0 + 1) j' row p h hp)

/-- C1: a pixel `(u, v)` whose preprocessed sample `d` gives
`Z = d * depth_scale` inside `(min_depth, max_depth)` contributes exactly
the point `((u - cx) * Z / fx, (v - cy) * Z / fy, Z)`, and that point is
among the points `depth_to_point_cloud` emits; in particular with
`fx = fy = 500, cx = 320, cy = 240` pixel `(320, 240)` at `Z = 1` maps to
`(0, 0, 1)` exactly and pixel `(420, 240)` at `Z = 2` has `X = 0.4`. -/
theorem claim_C1 :
    (∀ (fx fy cx cy scale minD maxD : Rat) (v u d : Nat),
      minD < (d : Rat) * scale → (d : Rat) * scale < maxD →
      pixelContrib fx fy cx cy scale minD maxD v u d
        = [backproject fx fy cx cy u v ((d : Rat) * scale)]) ∧
    (∀ (fx fy cx cy scale minD maxD : Rat) (input : DepthInput) (v u d : Nat) (row : List Nat),
      (preprocess_depth_image input)[v]? = some row → row[u]? = some d →
      minD < (d : Rat) * scale → (d : Rat) * scale < maxD →
      backproject fx fy cx cy u v ((d : Rat) * scale)
        ∈ depth_to_point_cloud fx fy cx cy scale minD maxD input) ∧
    backproject 500 500 320 240 320 240 1 = (0, 0, 1) ∧
    (backproject 500 500 320 240 420 240 2).1 = 2/5 := by
  have hpix : ∀ (fx fy cx cy scale minD maxD : Rat) (v u d : Nat),
      minD < (d : Rat) * scale → (d : Rat) * scale < maxD →
      pixelContrib fx fy cx cy scale minD maxD v u d
        = [backproject fx fy cx cy u v ((d : Rat) * scale)] := by
    intro fx fy cx cy scale minD maxD v u d h1 h2
    simp only [pixelContrib]
    rw [if_pos ⟨h1, h2⟩]
  refine ⟨hpix, ?_, ?_, ?_⟩
  · intro fx fy cx cy scale minD maxD input v u d row hv hu h1 h2
    unfold depth_to_point_cloud genPoints
    have hv0 : (preprocess_depth_image input)[v]? = some row := hv
    have : backproject fx fy cx cy u v ((d : Rat) * scale)
        ∈ pixelContrib fx fy cx cy scale minD maxD v (0 + u) d := by
      rw [Nat.zero_add, hpix fx fy cx cy scale minD maxD v u d h1 h2]
      exact List.mem_singleton_self _
    have hrow : backproject fx fy cx cy u v ((d : Rat) * scale)
        ∈ genRow fx fy cx cy scale minD maxD v 0 row :=
      genRow_mem fx fy cx cy scale minD maxD v row 0 u d _ hu this
    exact genRows_mem fx fy cx cy scale minD maxD _ 0 v row _ hv0 (by simpa using hrow)
  · norm_num [backproject]
  · norm_num [backproject]

/-- Witness for C1: a 1×1 raster holding raw sample 1000 at scale 1/1000
emits the point `(0, 0, 1)`. -/
theorem claim_C1_witness :
    backproject 1 1 0 0 0 0 (((1000 : Nat) : Rat) * (1/1000))
      ∈ depth_to_point_cloud 1 1 0 0 (1/1000) (1/10) 10 (.gray [[1000]]) := by
  refine claim_C1.2.1 1 1 0 0 (1/1000) (1/10) 10 (.gray [[1000]]) 0 0 1000 [1000] ?_ ?_ ?_ ?_
  · rfl
  · rfl
  · norm_num
  · norm_num

/-- C2: a pixel whose scaled depth `Z = d * s` does not lie strictly
inside `(min_depth, max_depth)` contributes no point, and in particular
a pixel with `Z` exactly equal to either boundary contributes none. -/
theorem claim_C2 :
    (∀ (fx fy cx cy s minD maxD : Rat) (v u d : Nat), 0 < s →
      ¬(minD < (d : Rat) * s ∧ (d : Rat) * s < maxD) →
      pixelContrib fx fy cx cy s minD maxD v u d = []) ∧
    (∀ (fx fy cx cy s minD maxD : Rat) (v u d : Nat), 0 < s → (d : Rat) * s = minD →
      pixelContrib fx fy cx cy s minD maxD v u d = []) ∧
    (∀ (fx fy cx cy s minD maxD : Rat) (v u d : Nat), 0 < s → (d : Rat) * s = maxD →
      pixelContrib fx fy cx cy s minD maxD v u d = []) := by
  refine ⟨?_, ?_, ?_⟩
  · intro fx fy cx cy s minD maxD v u d _ h
    simp only [pixelContrib]
    rw [if_neg h]
  · intro fx fy cx cy s minD maxD v u d _ h
    simp only [pixelContrib]
    rw [if_neg]
    intro hc
    exact absurd (h ▸ hc.1) (lt_irrefl minD)
  · intro fx fy cx cy s minD maxD v u d _ h
    simp only [pixelContrib]
    rw [if_neg]
    intro hc
    exact absurd (h ▸ hc.2) (lt_irrefl maxD)

/-- Witness for C2: a zero sample is dropped, and samples landing exactly
on `min_depth` or on `max_depth` are dropped too. -/
theorem claim_C2_witness :
    pixelContrib 1 1 0 0 1 (1/10) 10 0 0 0 = [] ∧
    pixelContrib 1 1 0 0 (1/10) (1/10) 10 0 0 1 = [] ∧
    pixelContrib 1 1 0 0 (1/10) (1/1000) (1/10) 0 0 1 = [] := by
  refine ⟨?_, ?_, ?_⟩
  · exact claim_C2.1 1 1 0 0 1 (1/10) 10 0 0 0 (by norm_num) (by norm_num)
  · exact claim_C2.2.1 1 1 0 0 (1/10) (1/10) 10 0 0 1 (by norm_num) (by norm_num)
  · exact claim_C2.2.2 1 1 0 0 (1/10) (1/1000) (1/10) 0 0 1 (by norm_num) (by norm_num)

/-- Evaluation of the full pipeline on the specification's 2×2 scenario
raster: the median blur turns `[[1000, 0], [2000, 5000]]` into
`[[1000, 1000], [2000, 2000]]`, so all four pixels survive the
`(0.1, 10)` filter. -/
theorem scenario_points :
    depth_to_point_cloud 1 1 0 0 (1/1000) (1/10) 10 (.gray scenarioGrid)
      = [(0, 0, 1), (1, 0, 1), (0, 2, 2), (2, 2, 2)] := by
  have hp : preprocess_depth_image (.gray scenarioGrid) = [[1000, 1000], [2000, 2000]] := rfl
  rw [depth_to_point_cloud, hp]
  simp only [genPoints, genRows, genRow, pixelContrib, backproject]
  norm_num

/-- C4: the claim predicts exactly three points for the 2×2 scenario
raster, but the median smoothing inside `depth_to_point_cloud` replaces
the 0 sample by 1000 and the 5000 sample by 2000, so the code emits four
points. -/
theorem claim_C4_cex :
    (depth_to_point_cloud 1 1 0 0 (1/1000) (1/10) 10 (.gray scenarioGrid)).length ≠ 3 := by
  rw [scenario_points]; simp

/-- C4 (amended): end-to-end reconstruction of the 2×2 raster
`[[1000, 0], [2000, 5000]]` with `depth_scale = 0.001`,
`min_depth = 0.1`, `max_depth = 10`, `fx = fy = 1`, `cx = cy = 0`
produces exactly four points — the 3×3 median smoothing replaces the 0
sample by 1000 and the 5000 sample by 2000 before the filter, so every
pixel passes, including the one that originally held 0. -/
theorem claim_C4 :
    depth_to_point_cloud 1 1 0 0 (1/1000) (1/10) 10 (.gray scenarioGrid)
      = [(0, 0, 1), (1, 0, 1), (0, 2, 2), (2, 2, 2)] := scenario_points

/-- C5: `depth_to_point_cloud` factors as the back-projection loop after
channel-0 reduction, the raw `(0, 10000)` sanity window, the `uint16`
conversion and the 3×3 median blur, in that order — all preprocessing
acts on raw samples before the scaled `(min_depth, max_depth)` filter,
never after it. -/
theorem claim_C5 :
    (∀ (fx fy cx cy scale minD maxD : Rat) (input : DepthInput),
      depth_to_point_cloud fx fy cx cy scale minD maxD input
        = genPoints fx fy cx cy scale minD maxD
            (medianFilter (toUint16 (applyWindow (toChannel0 input))))) ∧
    (∀ g : List (List (List Nat)),
      toChannel0 (DepthInput.multi g) = g.map fun row => row.map fun px => px.headD 0) ∧
    (∀ d : Nat, windowSample d = if 0 < d ∧ d < 10000 then d else 0) ∧
    (∀ g : List (List Nat), applyWindow g = g.map fun row => row.map windowSample) :=
  ⟨fun _ _ _ _ _ _ _ _ => rfl, fun _ => rfl, fun _ => rfl, fun _ => rfl⟩

/-- Every lookup in the windowed, `uint16`-converted grid is below the
raw sanity ceiling, out-of-range lookups included (they default to 0). -/
theorem pre_getD_lt (input : DepthInput) (r c : Nat) :
    ((toUint16 (applyWindow (toChannel0 input))).getD r []).getD c 0 < 10000 := by
  have hw : ∀ d : Nat, windowSample d < 10000 := by
    intro d
    by_cases hc : 0 < d ∧ d < 10000
    · rw [windowSample, if_pos hc]; exact hc.2
    · rw [windowSample, if_neg hc]; decide
  suffices h : ∀ g : List (List Nat),
      ((toUint16 (applyWindow g)).getD r []).getD c 0 < 10000 from h _
  intro g
  simp only [toUint16, applyWindow, List.map_map, List.getD_eq_getElem?_getD,
    List.getElem?_map]
  cases hg : g[r]? with
  | none => simp
  | some row =>
    simp only [Option.map_some', Option.getD_some, Function.comp]
    cases hrc : row[c]? with
    | none => simp [List.getElem?_map, hrc]
    | some a =>
      simp only [List.getElem?_map, hrc, Option.map_some', Option.getD_some]
      exact lt_of_le_of_lt (Nat.mod_le _ _) (hw a)

/-- The fifth-smallest of a list of samples all below 10000 is below
10000 (when the index is out of range the default 0 is). -/
theorem median9_lt (l : List Nat) (hl : ∀ x ∈ l, x < 10000) : median9 l < 10000 := by
  unfold median9
  by_cases h4 : 4 < (l.insertionSort (· ≤ ·)).length
  · have he : (l.insertionSort (· ≤ ·)).getD 4 0 = (l.insertionSort (· ≤ ·))[4] := by
      simp [List.getD_eq_getElem?_getD, List.getElem?_eq_getElem h4]
    rw [he]
    exact hl _ ((List.perm_insertionSort (· ≤ ·) l).mem_iff.1 (List.getElem_mem h4))
  · have he : (l.insertionSort (· ≤ ·)).getD 4 0 = 0 := by
      simp [List.getD_eq_getElem?_getD,
        List.getElem?_eq_none (by omega : (l.insertionSort (· ≤ ·)).length ≤ 4)]
    rw [he]; decide

/-- C10: every sample of the grid `preprocess_depth_image` returns lies
in `[0, 10000)`: the window zeroes raw samples outside `(0, 10000)` and
the median filter only returns medians of windowed samples (or the
default 0), so every raw sample reaching the back-projection loop is
strictly below the sanity ceiling. -/
theorem claim_C10 :
    ∀ (input : DepthInput) (row : List Nat) (d : Nat),
      row ∈ preprocess_depth_image input → d ∈ row → 0 ≤ d ∧ d < 10000 := by
  intro input row d hrow hd
  refine ⟨Nat.zero_le d, ?_⟩
  simp only [preprocess_depth_image, medianFilter, List.mem_map] at hrow
  obtain ⟨v, _, rfl⟩ := hrow
  simp only [List.mem_map] at hd
  obtain ⟨u, _, hdq⟩ := hd
  rw [← hdq]
  apply median9_lt
  intro x hx
  simp only [nbhd, List.mem_flatMap, List.mem_map] at hx
  obtain ⟨r, _, c, _, hxeq⟩ := hx
  rw [← hxeq]
  exact pre_getD_lt input r c

/-- Witness for C10: the preprocessed 1×1 raster `[[5]]` keeps its sample
5, which lies in `[0, 10000)`. -/
theorem claim_C10_witness : (0 : Nat) ≤ 5 ∧ 5 < 10000 := by
  refine claim_C10 (.gray [[5]]) [5] 5 ?_ ?_
  · rw [show preprocess_depth_image (DepthInput.gray [[5]]) = [[5]] from rfl]
    exact List.mem_singleton_self _
  · exact List.mem_singleton_self _

/-- All lookups in the all-zero grid give 0. -/
theorem zeroGrid_getD (h w r c : Nat) : ((zeroGrid h w).getD r []).getD c 0 = 0 := by
  simp only [zeroGrid, List.getD_eq_getElem?_getD, List.getElem?_replicate]
  by_cases hr : r < h
  · simp only [hr, if_true, Option.getD_some, List.getElem?_replicate]
    by_cases hc : c < w
    · simp [hc]
    · simp [hc]
  · simp [hr]

/-- The 3×3 neighbourhood of any pixel of the all-zero grid is nine
zeros. -/
theorem nbhd_zeroGrid (h w v u : Nat) : nbhd (zeroGrid h w) v u = List.replicate 9 0 := by
  have hz : ∀ r c, ((zeroGrid h w).getD r []).getD c 0 = 0 := fun r c => zeroGrid_getD h w r c
  simp only [nbhd, hz]
  rfl

/-- Every entry of the median-filtered all-zero grid is 0. -/
theorem medianFilter_zeroGrid_entry (h w : Nat) :
    ∀ row ∈ medianFilter (zeroGrid h w), ∀ d ∈ row, d = 0 := by
  intro row hrow d hd
  simp only [medianFilter, List.mem_map] at hrow
  obtain ⟨v, _, rfl⟩ := hrow
  simp only [List.mem_map] at hd
  obtain ⟨u, _, hdq⟩ := hd
  rw [← hdq, nbhd_zeroGrid]
  rfl

/-- A row of zero samples contributes no point when `0 ≤ min_depth`. -/
theorem genRow_of_zeros (fx fy cx cy s mi ma : Rat) (hmi : 0 ≤ mi) (v : Nat) :
    ∀ row : List Nat, (∀ d ∈ row, d = 0) → ∀ u0,
      genRow fx fy cx cy s mi ma v u0 row = [] := by
  intro row
  induction row with
  | nil => intro _ u0; rfl
  | cons a rest ih =>
    intro hz u0
    rw [genRow]
    have ha : a = 0 := hz a (by simp)
    subst ha
    have hc : pixelContrib fx fy cx cy s mi ma v u0 0 = [] := by
      simp only [pixelContrib]
      rw [if_neg]
      intro hcon
      have h0 : mi < 0 := by simpa using hcon.1
      exact absurd h0 (not_lt.2 hmi)
    rw [hc, List.nil_append]
    exact ih (fun d hd => hz d (by simp [hd])) (u0 + 1)

/-- A grid of zero samples generates no point when `0 ≤ min_depth`. -/
theorem genRows_of_zeros (fx fy cx cy s mi ma : Rat) (hmi : 0 ≤ mi) :
    ∀ g : List (List Nat), (∀ row ∈ g, ∀ d ∈ row, d = 0) → ∀ v0,
      genRows fx fy cx cy s mi ma v0 g = [] := by
  intro g
  induction g with
  | nil => intro _ v0; rfl
  | cons r rest ih =>
    intro hz v0
    rw [genRows]
    rw [genRow_of_zeros fx fy cx cy s mi ma hmi v0 r (hz r (by simp)) 0, List.nil_append]
    exact ih (fun row hr => hz row (by simp [hr])) (v0 + 1)

/-- C8: an all-zero depth raster yields an empty point set — every sample
fails the `Z > min_depth` test — and the reconstruction is a total
function here, so the empty cloud is returned as a value, not raised as
an error. -/
theorem claim_C8 :
    ∀ (fx fy cx cy scale minD maxD : Rat) (h w : Nat), 0 ≤ minD →
      depth_to_point_cloud fx fy cx cy scale minD maxD (.gray (zeroGrid h w)) = [] := by
  intro fx fy cx cy scale minD maxD h w hmi
  have hz1 : applyWindow (zeroGrid h w) = zeroGrid h w := by
    simp [applyWindow, zeroGrid, List.map_replicate, windowSample]
  have hz2 : toUint16 (zeroGrid h w) = zeroGrid h w := by
    simp [toUint16, zeroGrid, List.map_replicate]
  have hpre : preprocess_depth_image (DepthInput.gray (zeroGrid h w))
      = medianFilter (zeroGrid h w) := by
    unfold preprocess_depth_image
    rw [show toChannel0 (DepthInput.gray (zeroGrid h w)) = zeroGrid h w from rfl, hz1, hz2]
  show genRows fx fy cx cy scale minD maxD 0
      (preprocess_depth_image (DepthInput.gray (zeroGrid h w))) = []
  rw [hpre]
  exact genRows_of_zeros fx fy cx cy scale minD maxD hmi _
    (medianFilter_zeroGrid_entry h w) 0

/-- Witness for C8: the all-zero 2×2 raster at the default configuration
yields the empty point list. -/
theorem claim_C8_witness :
    depth_to_point_cloud 500 500 320 240 (1/1000) (1/10) 10 (.gray (zeroGrid 2 2)) = [] :=
  claim_C8 500 500 320 240 (1/1000) (1/10) 10 2 2 (by norm_num)

/-- The start index `extract_frames_ffmpeg` reports is the one it was
given, whatever ffmpeg did. -/
theorem extract_frames_start (s : Nat) (o : Option Nat) :
    (extract_frames_ffmpeg s o).start = s := by
  cases o <;> rfl

/-- When `extract_frames_ffmpeg` renames at least one frame, the first
assigned index is the start index. -/
theorem extract_frames_head (s : Nat) (o : Option Nat) :
    0 < (extract_frames_ffmpeg s o).count →
    (extract_frames_ffmpeg s o).indices.head? = some s := by
  cases o with
  | none => intro h; exact absurd h (by simp [extract_frames_ffmpeg])
  | some k =>
    intro h
    have hk : 0 < k := by simpa [extract_frames_ffmpeg] using h
    cases k with
    | zero => exact absurd hk (by omega)
    | succ k' => rfl

/-- C7: a batch starting from persisted counter `N` commits exactly
`N + k` where `k` is the number of RGB frames produced, the RGB stream
starts at `N`, the depth stream (when its video exists) is extracted
with first frame index `N` — the same start index as the RGB stream —
and a missing RGB video gives `k = 0` and a committed value of `N`. -/
theorem claim_C7 :
    ∀ (persisted : Option Nat) (rgbVideo depthVideo : Option (Option Nat)),
      (organize_data persisted rgbVideo depthVideo).committed
        = get_next_frame_number persisted
            + (organize_data persisted rgbVideo depthVideo).rgb.count ∧
      (organize_data persisted rgbVideo depthVideo).rgb.start
        = get_next_frame_number persisted ∧
      (∀ e, (organize_data persisted rgbVideo depthVideo).depth = some e →
        e.start = get_next_frame_number persisted ∧
        (0 < e.count → e.indices.head? = some (get_next_frame_number persisted))) ∧
      (rgbVideo = none →
        (organize_data persisted rgbVideo depthVideo).committed
            = get_next_frame_number persisted ∧
          (organize_data persisted rgbVideo depthVideo).rgb.count = 0) := by
  intro persisted rgbVideo depthVideo
  cases rgbVideo with
  | none =>
    cases depthVideo with
    | none => exact ⟨rfl, rfl, by simp [organize_data], fun _ => ⟨rfl, rfl⟩⟩
    | some df =>
      refine ⟨rfl, rfl, ?_, fun _ => ⟨rfl, rfl⟩⟩
      intro e he
      have he' : e = extract_frames_ffmpeg (get_next_frame_number persisted) df := by
        simpa [organize_data] using he.symm
      subst he'
      exact ⟨extract_frames_start _ _, extract_frames_head _ _⟩
  | some f =>
    cases depthVideo with
    | none =>
      refine ⟨?_, ?_, by simp [organize_data], by intro h; cases h⟩
      · show (extract_frames_ffmpeg (get_next_frame_number persisted) f).start
            + (extract_frames_ffmpeg (get_next_frame_number persisted) f).count
          = _ + (extract_frames_ffmpeg (get_next_frame_number persisted) f).count
        rw [extract_frames_start]
      · exact extract_frames_start _ _
    | some df =>
      refine ⟨?_, ?_, ?_, by intro h; cases h⟩
      · show (extract_frames_ffmpeg (get_next_frame_number persisted) f).start
            + (extract_frames_ffmpeg (get_next_frame_number persisted) f).count
          = _ + (extract_frames_ffmpeg (get_next_frame_number persisted) f).count
        rw [extract_frames_start]
      · exact extract_frames_start _ _
      · intro e he
        have he' : e = extract_frames_ffmpeg
            (extract_frames_ffmpeg (get_next_frame_number persisted) f).start df := by
          simpa [organize_data] using he.symm
        subst he'
        rw [extract_frames_start (get_next_frame_number persisted) f]
        exact ⟨extract_frames_start _ _, extract_frames_head _ _⟩

/-- Witness for C7: persisted counter 5, an RGB video producing 3 frames
and a depth video producing 2 frames: the batch commits 8, both streams
start at index 5. -/
theorem claim_C7_witness :
    (organize_data (some 5) (some (some 3)) (some (some 2))).committed = 8 ∧
    (organize_data (some 5) (some (some 3)) (some (some 2))).rgb.start = 5 ∧
    (extract_frames_ffmpeg 5 (some 2)).start = 5 ∧
    (extract_frames_ffmpeg 5 (some 2)).indices.head? = some 5 := by
  have h := claim_C7 (some 5) (some (some 3)) (some (some 2))
  have hd := h.2.2.1 (extract_frames_ffmpeg 5 (some 2)) rfl
  exact ⟨by rw [h.1]; rfl, h.2.1, hd.1, hd.2 (by decide)⟩

end ThreeDData
